import Mathlib

/-!
# Verification of the form-configuration validation engine

Shallow embedding of the validation core of the `vite-react-form-builder`
repository:

* `src/utils/componentValidation.ts` — the rule evaluator (`validateRule`)
  and rule-list evaluator (`validateField`);
* `src/utils/formBuilderValidation.ts` — the form-level validator
  (`validateFormConfig`, `validateFormField`);
* the `handleChange` value-coercion logic of
  `src/components/form/FormSelect.tsx` and `FormRadioGroup.tsx`;
* the submission-outcome aggregation of `src/hooks/useFormSubmission.ts`
  (`submitForm`).

JavaScript values are modelled by the closed inductive `JSValue` covering the
primitive values the form components produce (null, undefined, NaN, booleans,
integers, strings); JS numbers are restricted to integers, which suffices for
every property below.  Regular-expression matching (`RegExp.prototype.test`)
is kept abstract as an explicit parameter `rt : String → String → Bool`
threaded through the evaluator, because no property of this development
depends on match results; RegExp *construction* (which can throw a
`SyntaxError` in JS) is modelled concretely by `jsRegExpValid`.
-/

/-- Model of the JavaScript primitive values the form engine handles.
`vNaN` is a separate constructor because `typeof NaN === 'number'` but
`NaN` is falsy and compares false under `<` and `>`. -/
inductive JSValue where
  | vNull
  | vUndefined
  | vNaN
  | vBool (b : Bool)
  | vNum (n : Int)
  | vStr (s : String)
  deriving DecidableEq, Repr

namespace JSValue

/-- JS truthiness: `null`, `undefined`, `NaN`, `false`, `0` and `""` are
falsy, everything else (in our primitive fragment) is truthy. -/
def truthy : JSValue → Bool
  | vNull => false
  | vUndefined => false
  | vNaN => false
  | vBool b => b
  | vNum n => n != 0
  | vStr s => s != ""

/-- Test `typeof value === 'string'`. -/
def isString : JSValue → Bool
  | vStr _ => true
  | _ => false

/-- Test `typeof value === 'number'` (true for `NaN` as well). -/
def isNumberType : JSValue → Bool
  | vNum _ => true
  | vNaN => true
  | _ => false

end JSValue

open JSValue

/-- Decimal-digit run to a natural number. -/
def digitsToNat (ds : List Char) : Nat :=
  ds.foldl (fun a c => a * 10 + (c.toNat - '0'.toNat)) 0

/-- Model of JavaScript `String.prototype.trim`: drop leading and trailing
whitespace (restricted to the ASCII whitespace of `Char.isWhitespace`;
JS additionally trims rarer Unicode space characters). -/
def jsTrim (s : String) : String :=
  ⟨((s.data.dropWhile Char.isWhitespace).reverse.dropWhile Char.isWhitespace).reverse⟩

/-- Model of JavaScript `Number(string)` restricted to the integral case:
the trimmed empty string converts to `0`, an optionally signed run of
decimal digits converts to that integer, and everything else (including
non-integral literals, which this development never needs) is `none`,
standing for `NaN`. -/
def strToNumber (s : String) : Option Int :=
  let t := jsTrim s
  if t = "" then some 0
  else match t.data with
    | '-' :: ds => if ds ≠ [] ∧ ds.all Char.isDigit then some (-(digitsToNat ds : Int)) else none
    | '+' :: ds => if ds ≠ [] ∧ ds.all Char.isDigit then some ((digitsToNat ds : Int)) else none
    | ds => if ds.all Char.isDigit then some ((digitsToNat ds : Int)) else none

/-- Model of JavaScript `ToNumber` on our primitive fragment
(`none` stands for `NaN`). -/
def jsToNumber : JSValue → Option Int
  | vNull => some 0
  | vUndefined => none
  | vNaN => none
  | vBool b => some (if b then 1 else 0)
  | vNum n => some n
  | vStr s => strToNumber s

/-- Model of JavaScript `String(value)` on our primitive fragment. -/
def jsToString : JSValue → String
  | vNull => "null"
  | vUndefined => "undefined"
  | vNaN => "NaN"
  | vBool b => if b then "true" else "false"
  | vNum n => toString n
  | vStr s => s

/-- The emptiness test used both by the `required` rule
(`componentValidation.ts` line 31) and by the built-in required fallback of
`validateFormField` (`formBuilderValidation.ts` lines 89–90):
`value === null || value === undefined || value === '' ||
(typeof value === 'string' && value.trim() === '')`. -/
def isEmptyValue : JSValue → Bool
  | vNull => true
  | vUndefined => true
  | vStr s => s == "" || jsTrim s == ""
  | _ => false

/-- Model of the anchored literal regex `/^[^\s@]+@[^\s@]+\.[^\s@]+$/` used
by the `email` rule: exactly one `@`, a non-empty whitespace-free local
part, and a whitespace-free domain containing a dot that is neither its
first nor its last character. -/
def emailRegexTest (s : String) : Bool :=
  match s.splitOn "@" with
  | [p, t] =>
      p != "" && p.data.all (fun c => !c.isWhitespace) &&
      t.data.all (fun c => !c.isWhitespace) &&
      ((t.data.drop 1).dropLast.contains '.')
  | _ => false

/-- Structure `ValidationRule` from `src/types/formComponents.types.ts`.  The TS
`type` field is a union of eight string literals; it is modelled as a
plain `String` so that out-of-union tags (possible through `any` casts)
are representable.  `value : Option JSValue` models the optional `value?:
any` attribute (`none` = the property is absent/undefined); `validator`
models the optional custom predicate. -/
structure ValidationRule where
  type : String
  value : Option JSValue := none
  message : String
  validator : Option (JSValue → Bool) := none

/-- Comparison `a < b` as JS evaluates it when `a` is a number and `b` is an arbitrary
value: `b` is converted with `ToNumber`, and any comparison against `NaN`
is false. -/
def jsNumLt (a : Int) (b : JSValue) : Bool :=
  match jsToNumber b with
  | some m => a < m
  | none => false

/-- Comparison `a > b` for a number `a` against an arbitrary JS value `b`. -/
def jsNumGt (a : Int) (b : JSValue) : Bool :=
  match jsToNumber b with
  | some m => a > m
  | none => false

/-- Function `validateRule` from `src/utils/componentValidation.ts` (lines 28–100),
the single-rule evaluator.  `rt` abstracts `new RegExp(src).test(s)` for a
*valid* pattern source (construction failure is modelled separately by
`validateRuleE`). -/
def validateRule (rt : String → String → Bool) (value : JSValue)
    (rule : ValidationRule) : Option String :=
  if rule.type = "required" then
    if isEmptyValue value then some rule.message else none
  else if rule.type = "email" then
    match value with
    | vStr s => if s ≠ "" ∧ ¬ emailRegexTest s then some rule.message else none
    | _ => none
  else if rule.type = "min" then
    match value, rule.value with
    | vNum n, some rv => if jsNumLt n rv then some rule.message else none
    | _, _ => none
  else if rule.type = "max" then
    match value, rule.value with
    | vNum n, some rv => if jsNumGt n rv then some rule.message else none
    | _, _ => none
  else if rule.type = "minLength" then
    match value, rule.value with
    | vStr s, some rv => if jsNumLt (s.length : Int) rv then some rule.message else none
    | _, _ => none
  else if rule.type = "maxLength" then
    match value, rule.value with
    | vStr s, some rv => if jsNumGt (s.length : Int) rv then some rule.message else none
    | _, _ => none
  else if rule.type = "pattern" then
    match value, rule.value with
    | vStr s, some rv =>
        if s ≠ "" ∧ truthy rv then
          if ¬ rt (jsToString rv) s then some rule.message else none
        else none
    | _, _ => none
  else if rule.type = "custom" then
    match rule.validator with
    | some f => if ¬ f value then some rule.message else none
    | none => none
  else none

/-- The loop body of `validateField` (lines 15–20): JS tests the returned
message with `if (error)`, a *truthiness* test, so a failing rule whose
message is the empty string is skipped and evaluation continues. -/
def validateFieldGo (rt : String → String → Bool) (value : JSValue) :
    List ValidationRule → Option String
  | [] => none
  | r :: rest =>
    match validateRule rt value r with
    | some e => if e = "" then validateFieldGo rt value rest else some e
    | none => validateFieldGo rt value rest

/-- Function `validateField` from `src/utils/componentValidation.ts` (lines 10–23):
evaluates a value against an optional list of rules, returning the first
truthy failure message. -/
def validateField (rt : String → String → Bool) (value : JSValue)
    (rules : Option (List ValidationRule)) : Option String :=
  match rules with
  | none => none
  | some rs => if rs.isEmpty then none else validateFieldGo rt value rs

/-- The validation-relevant attributes of `FormFieldConfig`
(`src/types/formComponents.types.ts` lines 93–98 together with
`BaseFormFieldProps`).  `fieldType` is one of
`input/select/checkbox/radio/textarea` (plus the `paragraph` tag the
validator skips), modelled as a `String`; the optional `show`, `required`,
`validationRules` and `onValidate` props use `none` for an absent
(undefined) property.  `show` is spelled `show'` because `show` is a Lean
keyword. -/
structure FormFieldConfig where
  fieldType : String
  name : String
  show' : Option Bool := none
  required : Option Bool := none
  validationRules : Option (List ValidationRule) := none
  onValidate : Option (JSValue → Option String) := none

/-- Structure `FormSectionConfig` (validation-relevant attributes). -/
structure FormSectionConfig where
  fields : List FormFieldConfig
  show' : Option Bool := none

/-- Structure `FormConfig` (validation-relevant attributes). -/
structure FormConfig where
  sections : List FormSectionConfig

/-- Type `FormData` is a JS object used as a string-keyed map; modelled as an
association list with at most one binding per key intent (first binding
wins on lookup, matching JS objects which cannot hold duplicate keys). -/
abbrev FormData := List (String × JSValue)

/-- Lookup `formData[field.name]`: property access, `undefined` when absent. -/
def lookupFD (d : FormData) (k : String) : JSValue :=
  match d.find? (fun p => p.1 == k) with
  | some p => p.2
  | none => JSValue.vUndefined

/-- The ErrorMap is a JS object keyed by field name; modelled as an
association list in insertion order. -/
abbrev ErrorMap := List (String × String)

/-- Assignment `errors[k] = v` on a JS object: overwrite in place when the key exists
(keeping its original position), append otherwise. -/
def setKey : ErrorMap → String → String → ErrorMap
  | [], k, v => [(k, v)]
  | (k', v') :: rest, k, v =>
      if k' = k then (k', v) :: rest else (k', v') :: setKey rest k v

/-- The built-in required fallback of `validateFormField`
(`formBuilderValidation.ts` lines 79–93), reached after the rule list and
the custom validator produced no (truthy) error: for checkboxes the test
is `!value || value === false`; for every other field kind it is the
emptiness test `isEmptyValue`. -/
def builtinRequired (field : FormFieldConfig) (value : JSValue) : Option String :=
  if field.required = some true then
    if field.fieldType = "checkbox" then
      if ¬ truthy value ∨ value = vBool false then some "This field is required" else none
    else
      if isEmptyValue value then some "This field is required" else none
  else none

/-- Function `validateFormField` from `src/utils/formBuilderValidation.ts`
(lines 62–96): first the declared rules (`'validationRules' in field &&
field.validationRules` — an array, even empty, is truthy), then the custom
validator (whose message is tested with the truthy `if (error)`, so an
empty-string message falls through), then the built-in required
fallback. -/
def validateFormField (rt : String → String → Bool) (field : FormFieldConfig)
    (value : JSValue) : Option String :=
  match validateField rt value field.validationRules with
  | some e => some e
  | none =>
    match field.onValidate with
    | some f =>
      match f value with
      | some e => if e = "" then builtinRequired field value else some e
      | none => builtinRequired field value
    | none => builtinRequired field value

/-- The body of the inner (per-field) loop of `validateFormConfig`
(`formBuilderValidation.ts` lines 38–53): skip fields with
`show === false` and `paragraph` fields, otherwise validate against
`formData[field.name]` and record a truthy error message (`if
(fieldError)`) under the field's name. -/
def validateFieldStep (rt : String → String → Bool) (formData : FormData)
    (errors : ErrorMap) (field : FormFieldConfig) : ErrorMap :=
  if field.show' = some false then errors
  else if field.fieldType = "paragraph" then errors
  else
    match validateFormField rt field (lookupFD formData field.name) with
    | some e => if e = "" then errors else setKey errors field.name e
    | none => errors

/-- The body of the outer (per-section) loop of `validateFormConfig`
(lines 32–54): skip sections with `show === false`, otherwise run the
per-field loop over the section's fields. -/
def validateSectionStep (rt : String → String → Bool) (formData : FormData)
    (errors : ErrorMap) (sec : FormSectionConfig) : ErrorMap :=
  if sec.show' = some false then errors
  else sec.fields.foldl (validateFieldStep rt formData) errors

/-- Function `validateFormConfig` from `src/utils/formBuilderValidation.ts`
(lines 25–57): walk the sections in order starting from the empty error
object. -/
def validateFormConfig (rt : String → String → Bool) (formData : FormData)
    (formConfig : FormConfig) : ErrorMap :=
  formConfig.sections.foldl (validateSectionStep rt formData) []

/-- Function `hasValidationErrors` (lines 101–103). -/
def hasValidationErrors (errors : ErrorMap) : Bool :=
  ¬ errors.isEmpty

/-- Scanner deciding whether ECMAScript `new RegExp(source)` construction
succeeds, covering the common syntax errors: an unmatched `(` or `)`
group parenthesis, an unterminated `[...]` character class, and a pattern
ending in a dangling `\`.  (JS throws `SyntaxError: Invalid regular
expression` on these, e.g. on `new RegExp("(")`.)  `inClass` says whether
the scanner is inside a character class, `depth` counts open groups.
Rarer syntax errors (e.g. a quantifier with nothing to repeat) are not
modelled; they only make the success model permissive. -/
def regexScan : (inClass : Bool) → (depth : Nat) → List Char → Bool
  | false, 0, [] => true
  | false, _ + 1, [] => false
  | true, _, [] => false
  | _, _, ['\\'] => false
  | inClass, d, '\\' :: _ :: rest => regexScan inClass d rest
  | false, d, '(' :: rest => regexScan false (d + 1) rest
  | false, 0, ')' :: _ => false
  | false, d + 1, ')' :: rest => regexScan false d rest
  | false, d, '[' :: rest => regexScan true d rest
  | true, d, ']' :: rest => regexScan false d rest
  | inClass, d, _ :: rest => regexScan inClass d rest

/-- Whether `new RegExp(source)` succeeds (does not throw). -/
def jsRegExpValid (source : String) : Bool :=
  regexScan false 0 source.data

/-- The one place the rule evaluator can throw: the `pattern` branch
constructs `new RegExp(rule.value)` after the guard
`value && typeof value === 'string' && rule.value`, and construction
throws when the source is not a valid regular expression. -/
def patternThrows (value : JSValue) (rule : ValidationRule) : Bool :=
  rule.type == "pattern" &&
    (match value, rule.value with
     | vStr s, some rv => s != "" && truthy rv && !jsRegExpValid (jsToString rv)
     | _, _ => false)

/-- Function `validateRule` in a model where JS exceptions are explicit: identical
to `validateRule` except that a reached `pattern` branch whose source
fails RegExp construction throws instead of returning. -/
def validateRuleE (rt : String → String → Bool) (value : JSValue)
    (rule : ValidationRule) : Except String (Option String) :=
  if patternThrows value rule then
    Except.error "SyntaxError: Invalid regular expression"
  else
    Except.ok (validateRule rt value rule)

/-- The `validateField` loop with explicit exceptions. -/
def validateFieldGoE (rt : String → String → Bool) (value : JSValue) :
    List ValidationRule → Except String (Option String)
  | [] => Except.ok none
  | r :: rest =>
    match validateRuleE rt value r with
    | Except.error e => Except.error e
    | Except.ok (some m) =>
        if m = "" then validateFieldGoE rt value rest else Except.ok (some m)
    | Except.ok none => validateFieldGoE rt value rest

/-- Function `validateField` with explicit exceptions. -/
def validateFieldE (rt : String → String → Bool) (value : JSValue)
    (rules : Option (List ValidationRule)) : Except String (Option String) :=
  match rules with
  | none => Except.ok none
  | some rs => if rs.isEmpty then Except.ok none else validateFieldGoE rt value rs

/-- Function `validateFormField` with explicit exceptions (the custom validator and
`onValidate` are modelled as total functions; the built-in fallback cannot
throw). -/
def validateFormFieldE (rt : String → String → Bool) (field : FormFieldConfig)
    (value : JSValue) : Except String (Option String) :=
  match validateFieldE rt value field.validationRules with
  | Except.error e => Except.error e
  | Except.ok (some e) => Except.ok (some e)
  | Except.ok none =>
    Except.ok (match field.onValidate with
      | some f =>
        match f value with
        | some e => if e = "" then builtinRequired field value else some e
        | none => builtinRequired field value
      | none => builtinRequired field value)

/-- The per-field loop body with explicit exceptions. -/
def validateFieldStepE (rt : String → String → Bool) (formData : FormData)
    (errors : ErrorMap) (field : FormFieldConfig) : Except String ErrorMap :=
  if field.show' = some false then Except.ok errors
  else if field.fieldType = "paragraph" then Except.ok errors
  else
    match validateFormFieldE rt field (lookupFD formData field.name) with
    | Except.error e => Except.error e
    | Except.ok (some e) =>
        Except.ok (if e = "" then errors else setKey errors field.name e)
    | Except.ok none => Except.ok errors

/-- The per-section loop body with explicit exceptions. -/
def validateSectionStepE (rt : String → String → Bool) (formData : FormData)
    (errors : ErrorMap) (sec : FormSectionConfig) : Except String ErrorMap :=
  if sec.show' = some false then Except.ok errors
  else sec.fields.foldlM (validateFieldStepE rt formData) errors

/-- Function `validateFormConfig` with explicit exceptions: a thrown `SyntaxError`
aborts the whole traversal (the JS loop has no try/catch). -/
def validateFormConfigE (rt : String → String → Bool) (formData : FormData)
    (formConfig : FormConfig) : Except String ErrorMap :=
  formConfig.sections.foldlM (validateSectionStepE rt formData) []

/-- A rule whose `pattern` source (if any) passes RegExp construction.
Non-pattern rules are unconstrained. -/
def ruleRegexOk (rule : ValidationRule) : Bool :=
  rule.type != "pattern" ||
    (match rule.value with
     | some rv => jsRegExpValid (jsToString rv)
     | none => true)

/-- Every rule declared by the field has a valid pattern source. -/
def fieldRegexOk (field : FormFieldConfig) : Bool :=
  match field.validationRules with
  | some rs => rs.all ruleRegexOk
  | none => true

/-- Every rule anywhere in the config has a valid pattern source. -/
def configRegexOk (c : FormConfig) : Bool :=
  c.sections.all (fun sec => sec.fields.all fieldRegexOk)

/-- JavaScript `Number(s)` as a `JSValue` (`strToNumber`, with `NaN` for
the unparsable case). -/
def jsNumberOf (s : String) : JSValue :=
  match strToNumber s with
  | some n => vNum n
  | none => vNaN

/-- Handler `handleChange` of `src/components/form/FormSelect.tsx` (lines 65–75),
restricted to the emitted value: `typeof value === 'number' ?
Number(selectedValue) : selectedValue`, where `value` is the current
stored value and `selectedValue` the raw option string from the DOM. -/
def selectHandleChange (value : JSValue) (selectedValue : String) : JSValue :=
  if value.isNumberType then jsNumberOf selectedValue else vStr selectedValue

/-- Handler `handleChange` of `src/components/form/FormRadioGroup.tsx`
(lines 70–80); textually the same coercion as `FormSelect`. -/
def radioHandleChange (value : JSValue) (selectedValue : String) : JSValue :=
  if value.isNumberType then jsNumberOf selectedValue else vStr selectedValue

/-- The `{success, error?}` envelope both sinks resolve with
(`submitToGoogleSheets` / `submitToBackend` in `src/utils/api.ts` catch
internally and always resolve). -/
structure SubmitResult where
  success : Bool
  error : Option String := none
  deriving DecidableEq, Repr

/-- Fallback `x || 'Unknown error'` on an optional string. -/
def errorOrUnknown : Option String → String
  | some e => if e = "" then "Unknown error" else e
  | none => "Unknown error"

/-- The observable per-call outcome of `submitForm`. -/
structure SubmissionOutcome where
  returned : Bool
  submitSuccess : Bool
  submitError : String
  warnings : List String
  deriving DecidableEq, Repr

/-- The result-aggregation logic of `submitForm` in
`src/hooks/useFormSubmission.ts` (lines 85–127), as a function of the two
resolved sink results: Google Sheets (primary) decides success; a backend
failure is logged with `console.warn` (the `warnings` channel) when the
primary succeeded, or appended to the blocking error message when the
primary failed.  `backend` is `none` when `includeBackend` sent no second
request. -/
def submitFormOutcome (includeBackend : Bool) (sheets : SubmitResult)
    (backend : Option SubmitResult) : SubmissionOutcome :=
  if sheets.success then
    { returned := true
      submitSuccess := true
      submitError := ""
      warnings :=
        match backend with
        | some b =>
          if includeBackend ∧ ¬ b.success then
            ["Backend submission failed (non-critical): " ++ errorOrUnknown b.error]
          else []
        | none => [] }
  else
    let errorMessages :=
      ["Google Sheets: " ++ errorOrUnknown sheets.error] ++
        (match backend with
         | some b =>
           if includeBackend ∧ ¬ b.success then
             ["Backend: " ++ errorOrUnknown b.error]
           else []
         | none => [])
    { returned := false
      submitSuccess := false
      submitError := String.intercalate " | " errorMessages
      warnings := [] }

/-! ## Concrete example configurations used in the theorems below -/

/-- A `maxLength(5)` rule (passes on the empty string). -/
def maxLen5Rule : ValidationRule :=
  { type := "maxLength", value := some (vNum 5), message := "demasiado largo" }

/-- A visible required `input` field that *does* declare a non-empty
explicit rule list. -/
def requiredWithRulesField : FormFieldConfig :=
  { fieldType := "input", name := "f", required := some true,
    validationRules := some [maxLen5Rule] }

/-- One-section form around `requiredWithRulesField`. -/
def requiredWithRulesConfig : FormConfig :=
  { sections := [{ fields := [requiredWithRulesField] }] }

/-- A required checkbox with no explicit rules and no custom validator
(the claim's `terms` scenario). -/
def termsField : FormFieldConfig :=
  { fieldType := "checkbox", name := "terms", required := some true }

/-- One-section form around `termsField`. -/
def termsConfig : FormConfig :=
  { sections := [{ fields := [termsField] }] }

/-- A pattern rule whose source `"("` makes `new RegExp` throw. -/
def badPatternRule : ValidationRule :=
  { type := "pattern", value := some (vStr "("), message := "bad" }

/-- One-section form around a field carrying `badPatternRule`. -/
def badPatternConfig : FormConfig :=
  { sections := [{ fields := [{ fieldType := "input", name := "x", validationRules := some [badPatternRule] }] }] }

/-- A pattern rule whose source `"[a-z]+"` passes RegExp construction. -/
def okPatternRule : ValidationRule :=
  { type := "pattern", value := some (vStr "[a-z]+"), message := "bad" }

/-- One-section form around a field carrying `okPatternRule`. -/
def okPatternConfig : FormConfig :=
  { sections := [{ fields := [{ fieldType := "input", name := "x", validationRules := some [okPatternRule] }] }] }

/-- A form mixing a visible required field, a hidden required field, a
required field inside a hidden section, and a paragraph field. -/
def mixedVisibilityConfig : FormConfig :=
  { sections :=
      [{ fields := [{ fieldType := "input", name := "email", required := some true },
                    { fieldType := "input", name := "secret", show' := some false, required := some true }] },
       { fields := [{ fieldType := "input", name := "ghost", required := some true }], show' := some false },
       { fields := [{ fieldType := "paragraph", name := "info" }] }] }

/-- Whether the config contains a visible (`show !== false`),
non-paragraph field with the given name inside a visible section — the
exact guard combination under which `validateFormConfig` can write a
key. -/
def visibleFieldNamed (c : FormConfig) (n : String) : Bool :=
  c.sections.any fun sec =>
    sec.show' != some false &&
      sec.fields.any fun f =>
        f.show' != some false && f.fieldType != "paragraph" && f.name == n

/-! ## Helper lemmas -/

/-- Rules that produce no truthy message are skipped by the
`validateField` loop. -/
theorem validateFieldGo_skip (rt : String → String → Bool) (v : JSValue)
    (rs₁ l : List ValidationRule)
    (h : ∀ r ∈ rs₁, validateRule rt v r = none ∨ validateRule rt v r = some "") :
    validateFieldGo rt v (rs₁ ++ l) = validateFieldGo rt v l := by
  induction rs₁ with
  | nil => rfl
  | cons r rs ih =>
    have hr := h r (by simp)
    have hrest : ∀ r' ∈ rs, validateRule rt v r' = none ∨ validateRule rt v r' = some "" :=
      fun r' hr' => h r' (by simp [hr'])
    rcases hr with hr | hr <;> simp [validateFieldGo, hr] <;> exact ih hrest

/-! ## Claims -/

/-- C5: the `required` rule inspects emptiness only, never falsy-ness:
it fails on `null`, `undefined`, the empty string and all-whitespace
strings, and passes on the number `0`, the boolean `false`, and any
string that is not all whitespace. -/
theorem c5_required_inspects_emptiness_only
    (rt : String → String → Bool) (m s t : String)
    (hs : jsTrim s = "") (ht : jsTrim t ≠ "") :
    validateRule rt vNull { type := "required", message := m } = some m ∧
    validateRule rt vUndefined { type := "required", message := m } = some m ∧
    validateRule rt (vStr "") { type := "required", message := m } = some m ∧
    validateRule rt (vStr s) { type := "required", message := m } = some m ∧
    validateRule rt (vNum 0) { type := "required", message := m } = none ∧
    validateRule rt (vBool false) { type := "required", message := m } = none ∧
    validateRule rt (vStr t) { type := "required", message := m } = none := by
  have ht' : t ≠ "" := by
    intro h
    apply ht
    rw [h]
    rfl
  refine ⟨?_, ?_, ?_, ?_, ?_, ?_, ?_⟩ <;>
    simp [validateRule, isEmptyValue, hs, ht, ht']

/-- Witness for C5 at `s := "  "` and `t := "hi"`. -/
theorem c5_witness :
    jsTrim "  " = "" ∧ jsTrim "hi" ≠ "" ∧
    (validateRule (fun _ _ => true) vNull { type := "required", message := "req" } = some "req" ∧
     validateRule (fun _ _ => true) vUndefined { type := "required", message := "req" } = some "req" ∧
     validateRule (fun _ _ => true) (vStr "") { type := "required", message := "req" } = some "req" ∧
     validateRule (fun _ _ => true) (vStr "  ") { type := "required", message := "req" } = some "req" ∧
     validateRule (fun _ _ => true) (vNum 0) { type := "required", message := "req" } = none ∧
     validateRule (fun _ _ => true) (vBool false) { type := "required", message := "req" } = none ∧
     validateRule (fun _ _ => true) (vStr "hi") { type := "required", message := "req" } = none) :=
  ⟨by decide, by decide,
   c5_required_inspects_emptiness_only (fun _ _ => true) "req" "  " "hi" (by decide) (by decide)⟩

/-- C10: misconfigured rules silently pass for every input value — a
`min`/`max`/`minLength`/`maxLength` rule whose threshold is absent
(undefined), a `custom` rule with no validator function, and a rule whose
tag is none of the eight known kinds each evaluate to none. -/
theorem c10_malformed_rules_pass
    (rt : String → String → Bool) (v : JSValue) (m : String)
    (thr : Option JSValue) (f? : Option (JSValue → Bool)) (t : String)
    (h1 : t ≠ "required") (h2 : t ≠ "email") (h3 : t ≠ "min") (h4 : t ≠ "max")
    (h5 : t ≠ "minLength") (h6 : t ≠ "maxLength") (h7 : t ≠ "pattern")
    (h8 : t ≠ "custom") :
    validateRule rt v { type := "min", message := m, validator := f? } = none ∧
    validateRule rt v { type := "max", message := m, validator := f? } = none ∧
    validateRule rt v { type := "minLength", message := m, validator := f? } = none ∧
    validateRule rt v { type := "maxLength", message := m, validator := f? } = none ∧
    validateRule rt v { type := "custom", value := thr, message := m } = none ∧
    validateRule rt v { type := t, value := thr, message := m, validator := f? } = none := by
  refine ⟨?_, ?_, ?_, ?_, ?_, ?_⟩
  · cases v <;> simp [validateRule]
  · cases v <;> simp [validateRule]
  · cases v <;> simp [validateRule]
  · cases v <;> simp [validateRule]
  · simp [validateRule]
  · simp [validateRule, h1, h2, h3, h4, h5, h6, h7, h8]

/-- Witness for C10 at the unknown tag `"bogus"`. -/
theorem c10_witness :
    validateRule (fun _ _ => true) (vNum 7)
      { type := "min", message := "msg", validator := some (fun _ => false) } = none ∧
    validateRule (fun _ _ => true) (vNum 7)
      { type := "max", message := "msg", validator := some (fun _ => false) } = none ∧
    validateRule (fun _ _ => true) (vNum 7)
      { type := "minLength", message := "msg", validator := some (fun _ => false) } = none ∧
    validateRule (fun _ _ => true) (vNum 7)
      { type := "maxLength", message := "msg", validator := some (fun _ => false) } = none ∧
    validateRule (fun _ _ => true) (vNum 7)
      { type := "custom", value := some (vNum 3), message := "msg" } = none ∧
    validateRule (fun _ _ => true) (vNum 7)
      { type := "bogus", value := some (vNum 3), message := "msg",
        validator := some (fun _ => false) } = none :=
  c10_malformed_rules_pass (fun _ _ => true) (vNum 7) "msg" (some (vNum 3))
    (some (fun _ => false)) "bogus" (by decide) (by decide) (by decide) (by decide)
    (by decide) (by decide) (by decide) (by decide)

/-- C4 counterexample: the claim fails as universally stated, because the
loop tests the returned message for JS truthiness.  With a first rule
that *fails* with the empty-string message, `validateField` does not
return that first failing rule's message: the later `minLength` rule
decides the result. -/
theorem c4_counterexample :
    validateRule (fun _ _ => true) (vStr "") { type := "required", message := "" } = some "" ∧
    validateField (fun _ _ => true) (vStr "")
      (some [{ type := "required", message := "" },
             { type := "minLength", value := some (vNum 5), message := "too short" }]) =
      some "too short" := ⟨rfl, rfl⟩

/-- C4 (amended): rule evaluation short-circuits on the first failure
whose message is non-empty (truthy): any prefix of rules that either pass
or fail with an empty message is skipped, the first rule failing with a
non-empty message decides the result, and the rules after it cannot
influence it. -/
theorem c4_first_truthy_failure_wins
    (rt : String → String → Bool) (v : JSValue)
    (rs₁ rs₂ : List ValidationRule) (r : ValidationRule) (m : String)
    (h : ∀ r' ∈ rs₁, validateRule rt v r' = none ∨ validateRule rt v r' = some "")
    (hr : validateRule rt v r = some m) (hm : m ≠ "") :
    validateField rt v (some (rs₁ ++ r :: rs₂)) = some m := by
  have hne : (rs₁ ++ r :: rs₂).isEmpty = false := by
    cases rs₁ <;> rfl
  simp only [validateField, hne, Bool.false_eq_true, if_false]
  rw [validateFieldGo_skip rt v rs₁ (r :: rs₂) h]
  simp [validateFieldGo, hr, hm]

/-- Witness for C4 (amended) on the claim's concrete scenario: rules
`[required(), minLength(5)]` with their default messages and value `""`
give the required message. -/
theorem c4_witness :
    validateRule (fun _ _ => true) (vStr "")
      { type := "required", message := "Este campo es requerido" } =
      some "Este campo es requerido" ∧
    "Este campo es requerido" ≠ "" ∧
    validateField (fun _ _ => true) (vStr "")
      (some ([] ++ { type := "required", message := "Este campo es requerido" } ::
             [{ type := "minLength", value := some (vNum 5),
                message := "Debe tener al menos 5 caracteres" }])) =
      some "Este campo es requerido" :=
  ⟨rfl, by decide,
   c4_first_truthy_failure_wins (fun _ _ => true) (vStr "") [] _ _ _
     (by simp) rfl (by decide)⟩

/-- C9: the select/radio change handlers coerce the raw option string to
the type of the *current* stored value: a numeric current value makes the
handler emit `Number(selected)`, any other current value passes the raw
string through; concretely a stored `3` and raw `"2"` emit the number
`2`, not the string `"2"`. -/
theorem c9_select_radio_numeric_coercion (v : JSValue) (s : String) :
    (v.isNumberType = true →
      selectHandleChange v s = jsNumberOf s ∧ radioHandleChange v s = jsNumberOf s) ∧
    (v.isNumberType = false →
      selectHandleChange v s = vStr s ∧ radioHandleChange v s = vStr s) ∧
    selectHandleChange (vNum 3) "2" = vNum 2 ∧
    radioHandleChange (vNum 3) "2" = vNum 2 ∧
    jsNumberOf "2" = vNum 2 ∧
    (vNum 2 : JSValue) ≠ vStr "2" := by
  refine ⟨?_, ?_, rfl, rfl, rfl, by decide⟩
  · intro h
    simp [selectHandleChange, radioHandleChange, h]
  · intro h
    simp [selectHandleChange, radioHandleChange, h]

/-- Witness for C9 at stored value `3` and raw string `"2"`. -/
theorem c9_witness :
    (vNum 3 : JSValue).isNumberType = true ∧
    (selectHandleChange (vNum 3) "2" = jsNumberOf "2" ∧
     radioHandleChange (vNum 3) "2" = jsNumberOf "2") :=
  ⟨rfl, (c9_select_radio_numeric_coercion (vNum 3) "2").1 rfl⟩


/-- C1: evidence against the claim (and against the code's own comment
"For required fields without explicit validation rules, check if empty"):
the visible `input` field `requiredWithRulesField` has the non-empty rule
list `[maxLength(5)]` and `required=true`; on value `""` its declared
rules pass (first conjunct), yet `validateFormField` records the built-in
fallback message `"This field is required"`, and the form-level validator
records it under the field's name — the built-in required check fires
although explicit rules exist, because the code guards it with
`field.required` alone. -/
theorem c1_builtin_fallback_fires_despite_rules :
    validateField (fun _ _ => true) (vStr "") (some [maxLen5Rule]) = none ∧
    requiredWithRulesField.validationRules = some [maxLen5Rule] ∧
    validateFormField (fun _ _ => true) requiredWithRulesField (vStr "") =
      some "This field is required" ∧
    validateFormConfig (fun _ _ => true) [("f", vStr "")] requiredWithRulesConfig =
      [("f", "This field is required")] :=
  ⟨rfl, rfl, rfl, rfl⟩

/-- C2 counterexample: the claim says a required checkbox (no rules, no
custom validator) fails exactly when its value is not *strictly* `true`;
but for the value `1` — truthy, yet not strictly `true` — the code
records no error (`!value || value === false` is a falsy-ness test, not a
strict-equality test against `true`). -/
theorem c2_counterexample :
    validateFormConfig (fun _ _ => true) [("terms", vNum 1)] termsConfig = [] ∧
    (vNum 1 : JSValue) ≠ vBool true :=
  ⟨rfl, by decide⟩

/-- C2 (amended): for a visible required checkbox field with no explicit
rules and no custom validator, the validator records the required error
exactly when the value is JS-falsy (so not only for `false`: also for
`0`, `""`, `null`, `undefined`, `NaN`; and any truthy value passes, not
only `true`).  The claim's concrete scenarios hold: `{terms: false}`
fails for `terms` and `{terms: true}` passes. -/
theorem c2_checkbox_required_rejects_falsy
    (rt : String → String → Bool) (field : FormFieldConfig) (v : JSValue)
    (hc : field.fieldType = "checkbox") (hr : field.required = some true)
    (hrules : field.validationRules = none) (hov : field.onValidate = none) :
    validateFormField rt field v =
      (if truthy v then none else some "This field is required") ∧
    validateFormConfig rt [("terms", vBool false)] termsConfig =
      [("terms", "This field is required")] ∧
    validateFormConfig rt [("terms", vBool true)] termsConfig = [] := by
  refine ⟨?_, rfl, rfl⟩
  simp only [validateFormField, hrules, hov, validateField, builtinRequired, hr, hc,
    if_true, reduceIte]
  cases hv : truthy v with
  | false => simp [hv]
  | true =>
    have hvf : v ≠ vBool false := by
      intro h
      rw [h] at hv
      exact Bool.false_ne_true hv
    simp [hv, hvf]

/-- Witness for C2 (amended) at the concrete checkbox `termsField` and
the value `false`. -/
theorem c2_witness :
    validateFormField (fun _ _ => true) termsField (vBool false) =
      (if truthy (vBool false) then none else some "This field is required") ∧
    validateFormConfig (fun _ _ => true) [("terms", vBool false)] termsConfig =
      [("terms", "This field is required")] ∧
    validateFormConfig (fun _ _ => true) [("terms", vBool true)] termsConfig = [] :=
  c2_checkbox_required_rejects_falsy (fun _ _ => true) termsField (vBool false)
    rfl rfl rfl rfl

/-- The accumulator only grows during `String.intercalate.go`. -/
theorem intercalate_go_length_le (s : String) (as : List String) (acc : String) :
    acc.length ≤ (String.intercalate.go acc s as).length := by
  induction as generalizing acc with
  | nil => simp [String.intercalate.go]
  | cons a as ih =>
    rw [String.intercalate.go]
    refine le_trans ?_ (ih (acc ++ s ++ a))
    simp only [String.length_append]
    omega

/-- A string with a non-empty left part is non-empty. -/
theorem string_append_ne_empty_left (a b : String) (ha : a ≠ "") : a ++ b ≠ "" := by
  intro h
  apply ha
  have hd := congrArg String.data h
  rcases a with ⟨la⟩
  rcases b with ⟨lb⟩
  simp only [String.data] at hd
  have : la ++ lb = [] := by
    simpa using hd
  rcases List.append_eq_nil.mp this with ⟨h1, _⟩
  simp [h1]

/-- An `intercalate` of a list headed by a non-empty string is non-empty. -/
theorem intercalate_cons_ne_empty (s a : String) (as : List String) (ha : a ≠ "") :
    String.intercalate s (a :: as) ≠ "" := by
  intro h
  have h1 := intercalate_go_length_le s as a
  rw [String.intercalate] at h
  rw [h] at h1
  apply ha
  rcases a with ⟨la⟩
  have : la.length = 0 := by
    simpa [String.length] using h1
  simp [List.length_eq_zero.mp this]

/-- C8: submission success is decided by the primary (Google Sheets) sink
alone — when the primary result has `success=true`, `submitForm` returns
true, sets `submitSuccess`, leaves the blocking error channel empty, and
a failed backend result is recorded only on the `console.warn` diagnostic
channel; when the primary result has `success=false`, it returns false
and surfaces a non-empty error message. -/
theorem c8_primary_sink_decides
    (ib : Bool) (sheets : SubmitResult) (backend : Option SubmitResult) :
    (sheets.success = true →
      (submitFormOutcome ib sheets backend).returned = true ∧
      (submitFormOutcome ib sheets backend).submitSuccess = true ∧
      (submitFormOutcome ib sheets backend).submitError = "") ∧
    (∀ b, backend = some b → ib = true → b.success = false → sheets.success = true →
      (submitFormOutcome ib sheets backend).warnings =
        ["Backend submission failed (non-critical): " ++ errorOrUnknown b.error]) ∧
    (sheets.success = false →
      (submitFormOutcome ib sheets backend).returned = false ∧
      (submitFormOutcome ib sheets backend).submitSuccess = false ∧
      (submitFormOutcome ib sheets backend).submitError ≠ "") := by
  refine ⟨?_, ?_, ?_⟩
  · intro h
    simp [submitFormOutcome, h]
  · rintro b rfl rfl hb h
    simp [submitFormOutcome, h, hb]
  · intro h
    simp only [submitFormOutcome, h, Bool.false_eq_true, if_false]
    refine ⟨trivial, trivial, ?_⟩
    simp only [List.singleton_append]
    exact intercalate_cons_ne_empty _ _ _
      (string_append_ne_empty_left "Google Sheets: " _ (by decide))

/-- Witness for C8: primary success with a failing backend returns
true with an empty error channel; a failing primary returns false with a
non-empty error. -/
theorem c8_witness :
    ((submitFormOutcome true { success := true }
        (some { success := false, error := some "boom" })).returned = true ∧
     (submitFormOutcome true { success := true }
        (some { success := false, error := some "boom" })).submitSuccess = true ∧
     (submitFormOutcome true { success := true }
        (some { success := false, error := some "boom" })).submitError = "") ∧
    ((submitFormOutcome true { success := false, error := some "down" }
        (some { success := true })).returned = false ∧
     (submitFormOutcome true { success := false, error := some "down" }
        (some { success := true })).submitSuccess = false ∧
     (submitFormOutcome true { success := false, error := some "down" }
        (some { success := true })).submitError ≠ "") :=
  ⟨(c8_primary_sink_decides true { success := true }
      (some { success := false, error := some "boom" })).1 rfl,
   (c8_primary_sink_decides true { success := false, error := some "down" }
      (some { success := true })).2.2 rfl⟩

/-- C7: full-form validation is deterministic and idempotent — the
resulting ErrorMap is a pure function of the point values of `formData`
(and the config), so two calls with unchanged inputs return identical
maps; the embedding is pure, so neither call mutates its inputs.  We
prove the stronger extensionality statement: form data that agrees on
every key (even if rebuilt) yields the same ErrorMap. -/
theorem c7_validate_deterministic
    (rt : String → String → Bool) (c : FormConfig) (d₁ d₂ : FormData)
    (h : ∀ k, lookupFD d₁ k = lookupFD d₂ k) :
    validateFormConfig rt d₁ c = validateFormConfig rt d₂ c := by
  have hf : validateFieldStep rt d₁ = validateFieldStep rt d₂ := by
    funext errors field
    simp only [validateFieldStep, h field.name]
  have hs : validateSectionStep rt d₁ = validateSectionStep rt d₂ := by
    funext errors sec
    simp only [validateSectionStep, hf]
  simp only [validateFormConfig, hs]

/-- Witness for C7: the same form data given as two differently-ordered
association lists (agreeing on every lookup) yields the identical
ErrorMap. -/
theorem c7_witness :
    validateFormConfig (fun _ _ => true)
      [("terms", vBool false), ("junk", vNum 1)] termsConfig =
      validateFormConfig (fun _ _ => true)
        [("junk", vNum 1), ("terms", vBool false)] termsConfig := by
  refine c7_validate_deterministic (fun _ _ => true) termsConfig _ _ ?_
  intro k
  by_cases h1 : ("terms" : String) = k
  · subst h1
    rfl
  by_cases h2 : ("junk" : String) = k
  · subst h2
    rfl
  · have b1 : (("terms" : String) == k) = false := by simpa using h1
    have b2 : (("junk" : String) == k) = false := by simpa using h2
    simp [lookupFD, List.find?, b1, b2]

/-- A key present after `setKey` was already present or is the written
key. -/
theorem mem_setKey_fst {m : ErrorMap} {k v n : String}
    (h : n ∈ (setKey m k v).map Prod.fst) :
    n ∈ m.map Prod.fst ∨ n = k := by
  induction m with
  | nil =>
    simp [setKey] at h
    exact Or.inr h
  | cons p rest ih =>
    obtain ⟨k', v'⟩ := p
    by_cases hk : k' = k
    · rw [setKey, if_pos hk] at h
      rw [List.map_cons, List.mem_cons] at h
      rcases h with h | h
      · exact Or.inl (by rw [List.map_cons, List.mem_cons]; exact Or.inl h)
      · exact Or.inl (by rw [List.map_cons, List.mem_cons]; exact Or.inr h)
    · rw [setKey, if_neg hk] at h
      rw [List.map_cons, List.mem_cons] at h
      rcases h with h | h
      · exact Or.inl (by rw [List.map_cons, List.mem_cons]; exact Or.inl h)
      · rcases ih h with h'' | h''
        · exact Or.inl (by rw [List.map_cons, List.mem_cons]; exact Or.inr h'')
        · exact Or.inr h''

/-- The per-field loop body either leaves the error object unchanged, or
the field is visible and non-paragraph and the body writes under the
field's name. -/
theorem validateFieldStep_cases (rt : String → String → Bool) (d : FormData)
    (errors : ErrorMap) (field : FormFieldConfig) :
    validateFieldStep rt d errors field = errors ∨
      (field.show' ≠ some false ∧ field.fieldType ≠ "paragraph" ∧
        ∃ e, validateFieldStep rt d errors field = setKey errors field.name e) := by
  by_cases h1 : field.show' = some false
  · exact Or.inl (by rw [validateFieldStep, if_pos h1])
  by_cases h2 : field.fieldType = "paragraph"
  · exact Or.inl (by rw [validateFieldStep, if_neg h1, if_pos h2])
  cases hv : validateFormField rt field (lookupFD d field.name) with
  | none => exact Or.inl (by rw [validateFieldStep, if_neg h1, if_neg h2, hv])
  | some e =>
    by_cases he : e = ""
    · refine Or.inl ?_
      rw [validateFieldStep, if_neg h1, if_neg h2, hv]
      simp [he]
    · refine Or.inr ⟨h1, h2, e, ?_⟩
      rw [validateFieldStep, if_neg h1, if_neg h2, hv]
      simp [he]

/-- A key present after the per-field loop was already present or comes
from a visible, non-paragraph field of the processed list. -/
theorem mem_fields_foldl_fst (rt : String → String → Bool) (d : FormData)
    (fields : List FormFieldConfig) (errors : ErrorMap) (n : String)
    (h : n ∈ (fields.foldl (validateFieldStep rt d) errors).map Prod.fst) :
    n ∈ errors.map Prod.fst ∨
      ∃ f ∈ fields, f.show' ≠ some false ∧ f.fieldType ≠ "paragraph" ∧ f.name = n := by
  induction fields generalizing errors with
  | nil =>
    exact Or.inl (by simpa using h)
  | cons f fs ih =>
    simp only [List.foldl_cons] at h
    rcases ih (validateFieldStep rt d errors f) h with h' | ⟨g, hg, hq⟩
    · rcases validateFieldStep_cases rt d errors f with heq | ⟨h1, h2, e, heq⟩
      · rw [heq] at h'
        exact Or.inl h'
      · rw [heq] at h'
        rcases mem_setKey_fst h' with h'' | h''
        · exact Or.inl h''
        · exact Or.inr ⟨f, List.mem_cons_self f fs, h1, h2, h''.symm⟩
    · exact Or.inr ⟨g, List.mem_cons_of_mem f hg, hq⟩

/-- A key present after the per-section loop was already present or comes
from a visible, non-paragraph field of a visible section. -/
theorem mem_sections_foldl_fst (rt : String → String → Bool) (d : FormData)
    (secs : List FormSectionConfig) (errors : ErrorMap) (n : String)
    (h : n ∈ (secs.foldl (validateSectionStep rt d) errors).map Prod.fst) :
    n ∈ errors.map Prod.fst ∨
      ∃ sec ∈ secs, sec.show' ≠ some false ∧
        ∃ f ∈ sec.fields, f.show' ≠ some false ∧ f.fieldType ≠ "paragraph" ∧ f.name = n := by
  induction secs generalizing errors with
  | nil =>
    exact Or.inl (by simpa using h)
  | cons sec ss ih =>
    simp only [List.foldl_cons] at h
    rcases ih (validateSectionStep rt d errors sec) h with h' | ⟨g, hg, hq⟩
    · by_cases h1 : sec.show' = some false
      · rw [validateSectionStep, if_pos h1] at h'
        exact Or.inl h'
      · rw [validateSectionStep, if_neg h1] at h'
        rcases mem_fields_foldl_fst rt d sec.fields errors n h' with h'' | h''
        · exact Or.inl h''
        · exact Or.inr ⟨sec, List.mem_cons_self sec ss, h1, h''⟩
    · exact Or.inr ⟨g, List.mem_cons_of_mem sec hg, hq⟩

/-- C3: visibility exclusion — for every FormConfig and FormData, a name
borne only by hidden fields, fields of hidden sections, or paragraph
fields (that is, by no visible non-paragraph field of a visible section)
never appears as a key of the ErrorMap produced by `validateFormConfig`,
no matter how badly its value fails its configured rules. -/
theorem c3_hidden_fields_never_keyed (rt : String → String → Bool)
    (d : FormData) (c : FormConfig) (n : String)
    (h : visibleFieldNamed c n = false) :
    n ∉ (validateFormConfig rt d c).map Prod.fst := by
  intro hmem
  rcases mem_sections_foldl_fst rt d c.sections [] n
      (by simpa [validateFormConfig] using hmem) with h' | h'
  · simp at h'
  · rcases h' with ⟨sec, hsec, h1, f, hf, h2, h3, h4⟩
    have hv : visibleFieldNamed c n = true := by
      unfold visibleFieldNamed
      rw [List.any_eq_true]
      refine ⟨sec, hsec, ?_⟩
      rw [Bool.and_eq_true]
      refine ⟨by simpa using h1, ?_⟩
      rw [List.any_eq_true]
      exact ⟨f, hf, by simp [h2, h3, h4]⟩
    rw [h] at hv
    exact Bool.false_ne_true hv

/-- Witness for C3 on `mixedVisibilityConfig` with empty form data (every
required field fails its emptiness check there): the hidden required
field `secret`, the required field `ghost` inside a hidden section, and
the paragraph field `info` all produce no ErrorMap key, while the visible
required field `email` shows the map is not empty. -/
theorem c3_witness :
    visibleFieldNamed mixedVisibilityConfig "secret" = false ∧
    "secret" ∉ (validateFormConfig (fun _ _ => true) [] mixedVisibilityConfig).map Prod.fst ∧
    visibleFieldNamed mixedVisibilityConfig "ghost" = false ∧
    "ghost" ∉ (validateFormConfig (fun _ _ => true) [] mixedVisibilityConfig).map Prod.fst ∧
    visibleFieldNamed mixedVisibilityConfig "info" = false ∧
    "info" ∉ (validateFormConfig (fun _ _ => true) [] mixedVisibilityConfig).map Prod.fst ∧
    (validateFormConfig (fun _ _ => true) [] mixedVisibilityConfig).map Prod.fst = ["email"] :=
  ⟨rfl,
   c3_hidden_fields_never_keyed (fun _ _ => true) [] mixedVisibilityConfig "secret" rfl,
   rfl,
   c3_hidden_fields_never_keyed (fun _ _ => true) [] mixedVisibilityConfig "ghost" rfl,
   rfl,
   c3_hidden_fields_never_keyed (fun _ _ => true) [] mixedVisibilityConfig "info" rfl,
   rfl⟩

/-- A rule whose pattern source passes construction never throws. -/
theorem validateRuleE_ok (rt : String → String → Bool) (v : JSValue)
    (r : ValidationRule) (h : ruleRegexOk r = true) :
    validateRuleE rt v r = Except.ok (validateRule rt v r) := by
  have hp : patternThrows v r = false := by
    unfold patternThrows
    unfold ruleRegexOk at h
    by_cases ht : r.type = "pattern"
    · simp only [ht, beq_self_eq_true, Bool.true_and, bne_self_eq_false,
        Bool.false_or] at h ⊢
      cases hv : r.value with
      | none => cases v <;> simp
      | some rv =>
        have h' : jsRegExpValid (jsToString rv) = true := by
          rw [hv] at h
          simpa using h
        cases v <;> simp [h']
    · have ht' : (r.type == "pattern") = false := by simpa using ht
      simp [ht']
  unfold validateRuleE
  simp [hp]

/-- The rule-list loop never throws when every rule's pattern source
passes construction. -/
theorem validateFieldGoE_ok (rt : String → String → Bool) (v : JSValue)
    (rs : List ValidationRule) (h : ∀ r ∈ rs, ruleRegexOk r = true) :
    validateFieldGoE rt v rs = Except.ok (validateFieldGo rt v rs) := by
  induction rs with
  | nil => rfl
  | cons r rest ih =>
    have hrest : ∀ r' ∈ rest, ruleRegexOk r' = true :=
      fun r' hr' => h r' (List.mem_cons_of_mem r hr')
    simp only [validateFieldGoE, validateFieldGo,
      validateRuleE_ok rt v r (h r (List.mem_cons_self r rest))]
    cases hv : validateRule rt v r with
    | none => exact ih hrest
    | some m =>
      by_cases hm : m = ""
      · simp only [hm, if_true, reduceIte]
        exact ih hrest
      · simp [hm]

/-- Function `validateField` never throws when every declared rule's pattern
source passes construction. -/
theorem validateFieldE_ok (rt : String → String → Bool) (v : JSValue)
    (rules : Option (List ValidationRule))
    (h : ∀ rs, rules = some rs → ∀ r ∈ rs, ruleRegexOk r = true) :
    validateFieldE rt v rules = Except.ok (validateField rt v rules) := by
  cases rules with
  | none => rfl
  | some rs =>
    simp only [validateFieldE, validateField]
    by_cases he : rs.isEmpty
    · simp [he]
    · simp only [he, Bool.false_eq_true, if_false]
      exact validateFieldGoE_ok rt v rs (h rs rfl)

/-- Function `validateFormField` never throws on a field whose pattern sources
pass construction. -/
theorem validateFormFieldE_ok (rt : String → String → Bool)
    (field : FormFieldConfig) (v : JSValue) (h : fieldRegexOk field = true) :
    validateFormFieldE rt field v = Except.ok (validateFormField rt field v) := by
  have hrules : ∀ rs, field.validationRules = some rs → ∀ r ∈ rs, ruleRegexOk r = true := by
    intro rs hrs r hr
    unfold fieldRegexOk at h
    rw [hrs] at h
    exact List.all_eq_true.mp h r hr
  unfold validateFormFieldE validateFormField
  rw [validateFieldE_ok rt v field.validationRules hrules]
  cases hv : validateField rt v field.validationRules <;> simp [hv]

/-- The per-field loop body never throws on such a field. -/
theorem validateFieldStepE_ok (rt : String → String → Bool) (d : FormData)
    (errors : ErrorMap) (field : FormFieldConfig) (h : fieldRegexOk field = true) :
    validateFieldStepE rt d errors field =
      Except.ok (validateFieldStep rt d errors field) := by
  unfold validateFieldStepE validateFieldStep
  by_cases h1 : field.show' = some false
  · simp [h1]
  by_cases h2 : field.fieldType = "paragraph"
  · simp [h1, h2]
  simp only [h1, h2, if_false, reduceIte]
  rw [validateFormFieldE_ok rt field (lookupFD d field.name) h]
  cases hv : validateFormField rt field (lookupFD d field.name) <;> simp [hv]

/-- The per-field loop never throws when every field is pattern-safe. -/
theorem foldlM_fields_ok (rt : String → String → Bool) (d : FormData)
    (fields : List FormFieldConfig) (errors : ErrorMap)
    (h : fields.all fieldRegexOk = true) :
    List.foldlM (validateFieldStepE rt d) errors fields =
      Except.ok (fields.foldl (validateFieldStep rt d) errors) := by
  induction fields generalizing errors with
  | nil => rfl
  | cons f fs ih =>
    rw [List.all_cons, Bool.and_eq_true] at h
    obtain ⟨hf, hfs⟩ := h
    simp only [List.foldlM_cons, List.foldl_cons]
    rw [validateFieldStepE_ok rt d errors f hf]
    exact ih (validateFieldStep rt d errors f) hfs

/-- The per-section loop body never throws on a pattern-safe section. -/
theorem validateSectionStepE_ok (rt : String → String → Bool) (d : FormData)
    (errors : ErrorMap) (sec : FormSectionConfig)
    (h : sec.fields.all fieldRegexOk = true) :
    validateSectionStepE rt d errors sec =
      Except.ok (validateSectionStep rt d errors sec) := by
  unfold validateSectionStepE validateSectionStep
  by_cases h1 : sec.show' = some false
  · simp [h1]
  · simp only [h1, if_false, reduceIte]
    exact foldlM_fields_ok rt d sec.fields errors h

/-- The per-section loop never throws on a pattern-safe config. -/
theorem foldlM_sections_ok (rt : String → String → Bool) (d : FormData)
    (secs : List FormSectionConfig) (errors : ErrorMap)
    (h : secs.all (fun sec => sec.fields.all fieldRegexOk) = true) :
    List.foldlM (validateSectionStepE rt d) errors secs =
      Except.ok (secs.foldl (validateSectionStep rt d) errors) := by
  induction secs generalizing errors with
  | nil => rfl
  | cons sec ss ih =>
    rw [List.all_cons, Bool.and_eq_true] at h
    obtain ⟨hs, hss⟩ := h
    simp only [List.foldlM_cons, List.foldl_cons]
    rw [validateSectionStepE_ok rt d errors sec hs]
    exact ih (validateSectionStep rt d errors sec) hss

/-- C6 counterexample: validation *can* throw.  A `pattern` rule whose
source `"("` fails RegExp construction, evaluated on a truthy string
value, makes the rule evaluator — and hence the whole form-level
validator — raise a `SyntaxError` instead of returning a
message-or-none result. -/
theorem c6_counterexample :
    validateRuleE (fun _ _ => true) (vStr "a") badPatternRule =
      Except.error "SyntaxError: Invalid regular expression" ∧
    validateFormConfigE (fun _ _ => true) [("x", vStr "a")] badPatternConfig =
      Except.error "SyntaxError: Invalid regular expression" :=
  ⟨rfl, rfl⟩

/-- C6 (amended): validation is total and never throws *provided every
pattern rule's source passes RegExp construction* (and the supplied
custom validators / `onValidate` functions are total): under that
condition the exception-aware form-level validator returns `ok` with
exactly the pure ErrorMap, and a single rule with a construction-valid
pattern source always returns a message-or-none result; moreover
type-mismatched inputs degrade to pass — `email` on a non-string,
`min`/`max` on a non-number, and `minLength`/`maxLength`/`pattern` on a
non-string all evaluate to none rather than raising an error.  (Without
the pattern-validity condition the claim fails: a pattern rule with
source `"("` throws, see the counterexample.) -/
theorem c6_no_throw_given_valid_patterns
    (rt : String → String → Bool) (d : FormData) (c : FormConfig)
    (hc : configRegexOk c = true) :
    validateFormConfigE rt d c = Except.ok (validateFormConfig rt d c) ∧
    (∀ v r, ruleRegexOk r = true → validateRuleE rt v r = Except.ok (validateRule rt v r)) ∧
    (∀ (v : JSValue) (r : ValidationRule), v.isString = false → r.type = "email" →
      validateRule rt v r = none) ∧
    (∀ (v : JSValue) (r : ValidationRule), v.isNumberType = false →
      r.type = "min" ∨ r.type = "max" → validateRule rt v r = none) ∧
    (∀ (v : JSValue) (r : ValidationRule), v.isString = false →
      r.type = "minLength" ∨ r.type = "maxLength" ∨ r.type = "pattern" →
      validateRule rt v r = none) := by
  refine ⟨?_, ?_, ?_, ?_, ?_⟩
  · unfold validateFormConfigE validateFormConfig
    exact foldlM_sections_ok rt d c.sections [] (by simpa [configRegexOk] using hc)
  · exact fun v r hr => validateRuleE_ok rt v r hr
  · intro v r hv ht
    cases v <;> simp_all [validateRule, JSValue.isString]
  · intro v r hv ht
    rcases ht with ht | ht <;> cases v <;> simp_all [validateRule, JSValue.isNumberType]
  · intro v r hv ht
    rcases ht with ht | ht | ht <;> cases v <;> simp_all [validateRule, JSValue.isString]

/-- Witness for C6 (amended) on a config whose pattern rule has the
valid source `"[a-z]+"`. -/
theorem c6_witness :
    configRegexOk okPatternConfig = true ∧
    validateFormConfigE (fun _ _ => true) [("x", vStr "abc")] okPatternConfig =
      Except.ok (validateFormConfig (fun _ _ => true) [("x", vStr "abc")] okPatternConfig) :=
  ⟨rfl,
   (c6_no_throw_given_valid_patterns (fun _ _ => true) [("x", vStr "abc")]
      okPatternConfig rfl).1⟩
